import Mathlib

/-
Verification of the observable contract of the `escherichia_stxtyper` pipeline
module (src/code/escherichia_stxtyper.py): a wrapper that invokes the external
STXTyper tool once per genome assembly, parses its tab-separated output, and
folds the records into a combined mapping.

Embedding notes:
  * Python dictionaries are modelled as insertion-ordered association lists
    (`List (String × v)`); `d[k] = v` is `pyDictSet`, which replaces the value
    in place when the key is present and appends otherwise, exactly as a
    Python dict preserves insertion order.
  * `subprocess.run` is modelled by an oracle `tool : List String → Except
    String String` mapping the constructed command line to either the captured
    stdout or the error text of a `CalledProcessError`.
  * `sys.exit(msg)`, `raise ValueError(msg)` and a `KeyError` are modelled by
    the `PyErr` error type in an `Except` result.
  * `str.strip`, `str.splitlines`, `str.split('\t')`, `str.startswith` and
    `pathlib.Path.stem` are modelled after CPython semantics (`pystrip`,
    `splitlines`, `pysplit`, `pystartswith`, `pathStem`).
-/

namespace StxTyper

/-- Python exceptions / process exits that the module can produce. -/
inductive PyErr where
  | valueError (msg : String)
  | sysExit (msg : String)
  | keyError (key : String)
deriving DecidableEq, Repr

/-- One parsed result row: a Python dict from field name to string value. -/
abbrev Row := List (String × String)

/-- The combined results: a Python dict from composite key to row. -/
abbrev ResultDict := List (String × Row)

/-- The two CLI options this module registers (`--threads`, `--quiet`). -/
structure Args where
  threads : Int
  quiet : Bool
deriving DecidableEq, Repr

/-- `description()` from the source. -/
def description : String :=
  "Shiga toxin (stx) gene typing using STXTyper"

/-- `prerequisite_modules()` from the source. -/
def prerequisite_modules : List String := []

/-- `get_headers()` from the source: the fixed header list. -/
def get_headers : List String :=
  ["Assembly", "target_contig", "stx_type", "operon", "identity",
   "target_start", "target_stop", "target_strand",
   "A_reference", "A_identity", "A_reference_subtype", "A_coverage",
   "B_reference", "B_reference_subtype", "B_identity", "B_coverage"]

/-- `check_cli_options(args)` from the source.  `which` models
`shutil.which`: the search-path resolver for executable names. -/
def check_cli_options (which : String → Option String) (args : Args) :
    Except PyErr Unit :=
  if args.threads < 1 then
    .error (.valueError "The number of threads must be at least 1.")
  else if (which "stxtyper").isNone then
    .error (.sysExit "Error: STXTyper is not installed or not in PATH.")
  else
    .ok ()

/-- `check_external_programs()` from the source. -/
def check_external_programs (which : String → Option String) :
    Except PyErr (List String) :=
  if (which "stxtyper").isNone then
    .error (.sysExit "Error: could not find STXTyper executable.")
  else
    .ok ["stxtyper"]

/-- The command list built inside `run_stxtyper`. -/
def stxtyperCmd (nucleotide_file : String) (threads : Int) (quiet : Bool) :
    List String :=
  ["stxtyper", "-n", nucleotide_file, "-o", "/dev/stdout",
   "--threads", toString threads] ++ (if quiet then ["-q"] else [])

/-- `run_stxtyper(nucleotide_file, threads, quiet)` from the source.  The
subprocess is the oracle `tool`; a `CalledProcessError e` becomes
`sys.exit(f"Error running STXTyper: {e}")`. -/
def run_stxtyper (tool : List String → Except String String)
    (nucleotide_file : String) (threads : Int) (quiet : Bool) :
    Except String String :=
  match tool (stxtyperCmd nucleotide_file threads quiet) with
  | .ok out => .ok out
  | .error e => .error ("Error running STXTyper: " ++ e)

/-- Python `line.startswith(pre)`. -/
def pystartswith (s pre : String) : Bool :=
  pre.toList.isPrefixOf s.toList

/-- Helper for `pysplit`: `acc` holds the current field, reversed. -/
def pysplitAux (sep : Char) : List Char → List Char → List String
  | [], acc => [String.mk acc.reverse]
  | c :: rest, acc =>
    if c = sep then String.mk acc.reverse :: pysplitAux sep rest []
    else pysplitAux sep rest (c :: acc)

/-- Python `s.split(sep)` for a one-character separator: fields are kept even
when empty, and the empty string splits to `[""]`. -/
def pysplit (s : String) (sep : Char) : List String :=
  pysplitAux sep s.toList []

/-- CPython `str.strip()` whitespace set (ASCII part). -/
def isPySpace (c : Char) : Bool :=
  c = ' ' || c = '\t' || c = '\n' || c = '\x0d' ||
  c = Char.ofNat 11 || c = Char.ofNat 12

/-- Python `line.strip()`. -/
def pystrip (s : String) : String :=
  String.mk (((s.toList.dropWhile isPySpace).reverse.dropWhile isPySpace).reverse)

/-- The line-boundary characters of CPython `str.splitlines()`. -/
def isPyLineBreak (c : Char) : Bool :=
  c = '\n' || c = '\x0d' || c = Char.ofNat 11 || c = Char.ofNat 12 ||
  c = Char.ofNat 28 || c = Char.ofNat 29 || c = Char.ofNat 30 ||
  c = Char.ofNat 133 || c = Char.ofNat 8232 || c = Char.ofNat 8233

/-- Helper for `splitlines`: `acc` holds the current line, reversed. -/
def splitlinesAux : List Char → List Char → List String
  | [], acc => if acc.isEmpty then [] else [String.mk acc.reverse]
  | '\x0d' :: '\n' :: rest, acc => String.mk acc.reverse :: splitlinesAux rest []
  | c :: rest, acc =>
    if isPyLineBreak c then String.mk acc.reverse :: splitlinesAux rest []
    else splitlinesAux rest (c :: acc)

/-- Python `output.splitlines()`. -/
def splitlines (s : String) : List String :=
  splitlinesAux s.toList []

/-- The final component of a path, as `pathlib.PurePosixPath(...).name`
(empty and single-dot components are dropped). -/
def pathName (p : String) : String :=
  ((((pysplit p '/')).filter (fun c => !(c == "") && !(c == "."))).getLast?).getD ""

/-- `pathlib.Path(p).stem`: the name without its suffix.  CPython takes the
rightmost dot `i` of the name and keeps `name[:i]` when `0 < i < len - 1`. -/
def pathStem (p : String) : String :=
  let name := pathName p
  let cs := name.toList
  match ((List.range cs.length).filter (fun i => cs.getD i ' ' == '.')).getLast? with
  | none => name
  | some i => if 0 < i && i < cs.length - 1 then String.mk (cs.take i) else name

/-- Python dict lookup `r[k]` as an `Option` (`none` models `KeyError`). -/
def lookupField {α : Type} (r : List (String × α)) (k : String) : Option α :=
  match r.find? (fun q => q.1 == k) with
  | some q => some q.2
  | none => none

/-- Python dict assignment `d[k] = v`: replace in place when the key exists,
append otherwise (insertion order preserved). -/
def pyDictSet {α : Type} (d : List (String × α)) (k : String) (v : α) :
    List (String × α) :=
  if d.any (fun q => q.1 == k) then
    d.map (fun q => if q.1 == k then (k, v) else q)
  else
    d ++ [(k, v)]

/-- The `row_dict` built for one data line: zip the values positionally
against `get_headers()[1:]`, then set `row_dict['Assembly'] = stem`. -/
def rowOf (stem : String) (parts : List String) : Row :=
  pyDictSet ((get_headers.drop 1).zip parts) "Assembly" stem

/-- The body of the per-line loop of `get_results`: skip comment or blank
lines; otherwise split on tabs, build the row and store it under the
composite key.  The two key lookups in the f-string can raise `KeyError`. -/
def processLine (stem : String) (d : ResultDict) (line : String) :
    Except PyErr ResultDict :=
  if pystartswith line "#" || pystrip line == "" then .ok d
  else
    let parts := pysplit (pystrip line) '\t'
    let row := rowOf stem parts
    match lookupField row "target_contig" with
    | none => .error (.keyError "target_contig")
    | some contig =>
      match lookupField row "stx_type" with
      | none => .error (.keyError "stx_type")
      | some stx =>
        .ok (pyDictSet d (stem ++ "_" ++ contig ++ "_" ++ stx) row)

/-- The per-assembly line loop of `get_results`. -/
def processLines (stem : String) (ls : List String) (d : ResultDict) :
    Except PyErr ResultDict :=
  match ls with
  | [] => .ok d
  | l :: rest =>
    match processLine stem d l with
    | .error e => .error e
    | .ok d2 => processLines stem rest d2

/-- The assembly loop of `get_results`, threading the combined dict. -/
def getResultsAux (tool : List String → Except String String) (args : Args) :
    List String → ResultDict → Except PyErr ResultDict
  | [], d => .ok d
  | a :: rest, d =>
    match run_stxtyper tool a args.threads args.quiet with
    | .error msg => .error (.sysExit msg)
    | .ok output =>
      match processLines (pathStem a) (splitlines output) d with
      | .error e => .error e
      | .ok d2 => getResultsAux tool args rest d2

/-- `get_results(assemblies, args, previous_results)` from the source. -/
def get_results (tool : List String → Except String String)
    (assemblies : List String) (args : Args)
    (previous_results : ResultDict) : Except PyErr ResultDict :=
  getResultsAux tool args assemblies []

/-- The guard of the per-line loop, as a keep-predicate: a line survives when
it neither starts with `#` nor strips to the empty string. -/
def keepLine (line : String) : Bool :=
  !(pystartswith line "#") && !(pystrip line == "")

/-! ### Association-list (Python dict) lemmas -/

theorem pyDictSet_nil {α : Type} (k : String) (v : α) :
    pyDictSet [] k v = [(k, v)] := rfl

theorem pyDictSet_cons_ne {α : Type} (k1 : String) (v1 : α)
    (rs : List (String × α)) (k : String) (v : α) (h : (k1 == k) = false) :
    pyDictSet ((k1, v1) :: rs) k v = (k1, v1) :: pyDictSet rs k v := by
  have hne : k1 ≠ k := by simpa using h
  by_cases h2 : rs.any (fun q => q.1 == k) = true
  · simp [pyDictSet, h, hne, h2]
  · simp [pyDictSet, h, hne, h2]

theorem lookupField_cons {α : Type} (k1 : String) (v1 : α)
    (r : List (String × α)) (k : String) :
    lookupField ((k1, v1) :: r) k =
      if (k1 == k) = true then some v1 else lookupField r k := by
  by_cases h : (k1 == k) = true
  · simp [lookupField, List.find?, h]
  · simp [lookupField, List.find?, h]

theorem lookup_pyDictSet_same {α : Type} (r : List (String × α)) (k : String)
    (v : α) : lookupField (pyDictSet r k v) k = some v := by
  induction r with
  | nil => simp [pyDictSet, lookupField, List.find?]
  | cons p rs ih =>
    obtain ⟨k1, v1⟩ := p
    by_cases hp : (k1 == k) = true
    · have hk : k1 = k := by simpa using hp
      subst hk
      simp [pyDictSet, lookupField, List.find?]
    · have hne : (k1 == k) = false := by simpa using hp
      rw [pyDictSet_cons_ne k1 v1 rs k v hne, lookupField_cons]
      simp [hne, ih]

theorem zip_any_key_eq_false (k : String) (hs : List String)
    (hc : ∀ x ∈ hs, x ≠ k) (ps : List String) :
    ((hs.zip ps).any (fun q => q.1 == k)) = false := by
  induction hs generalizing ps with
  | nil => simp
  | cons h t ih =>
    cases ps with
    | nil => simp
    | cons p pt =>
      have h1 : h ≠ k := hc h (by simp)
      have h2 : ∀ x ∈ t, x ≠ k := fun x hx => hc x (by simp [hx])
      simp [List.zip_cons_cons, h1, ih h2 pt]

/-! ### Row lemmas -/

theorem rowOf_eq_append (stem : String) (parts : List String) :
    rowOf stem parts = (get_headers.drop 1).zip parts ++ [("Assembly", stem)] := by
  have h := zip_any_key_eq_false "Assembly" (get_headers.drop 1) (by decide) parts
  simp only [rowOf, pyDictSet, h, Bool.false_eq_true, if_false]

theorem lookup_rowOf_contig (stem a b : String) (rest : List String) :
    lookupField (rowOf stem (a :: b :: rest)) "target_contig" = some a := by
  rw [rowOf_eq_append]
  simp [get_headers, lookupField, List.find?]

theorem lookup_rowOf_stx (stem a b : String) (rest : List String) :
    lookupField (rowOf stem (a :: b :: rest)) "stx_type" = some b := by
  rw [rowOf_eq_append]
  simp [get_headers, lookupField, List.find?]

theorem lookup_rowOf_assembly (stem : String) (parts : List String) :
    lookupField (rowOf stem parts) "Assembly" = some stem :=
  lookup_pyDictSet_same _ _ _

theorem rowOf_length (stem : String) (parts : List String) :
    (rowOf stem parts).length = min 15 parts.length + 1 := by
  rw [rowOf_eq_append, List.length_append, List.length_zip]
  have hl : (get_headers.drop 1).length = 15 := rfl
  rw [hl]
  rfl

/-! ### Per-line loop lemmas -/

theorem processLine_skip (stem : String) (d : ResultDict) (l : String)
    (h : keepLine l = false) : processLine stem d l = .ok d := by
  unfold keepLine at h
  unfold processLine
  cases hs : pystartswith l "#" <;> cases hb : (pystrip l == "") <;>
    simp_all

theorem processLine_data (stem : String) (d : ResultDict) (l a b : String)
    (rest : List String) (h1 : pystartswith l "#" = false)
    (h2 : (pystrip l == "") = false)
    (h3 : pysplit (pystrip l) '\t' = a :: b :: rest) :
    processLine stem d l =
      .ok (pyDictSet d (stem ++ "_" ++ a ++ "_" ++ b)
        (rowOf stem (a :: b :: rest))) := by
  unfold processLine
  rw [h1, h2]
  simp only [Bool.or_self, Bool.false_eq_true, if_false, h3]
  rw [lookup_rowOf_contig, lookup_rowOf_stx]

theorem processLines_nil (stem : String) (d : ResultDict) :
    processLines stem [] d = .ok d := rfl

theorem processLines_cons (stem : String) (l : String) (rest : List String)
    (d : ResultDict) :
    processLines stem (l :: rest) d =
      match processLine stem d l with
      | .error e => .error e
      | .ok d2 => processLines stem rest d2 := rfl

theorem processLines_filter (stem : String) (ls : List String)
    (d : ResultDict) :
    processLines stem ls d = processLines stem (ls.filter keepLine) d := by
  induction ls generalizing d with
  | nil => rfl
  | cons l rest ih =>
    by_cases h : keepLine l = true
    · rw [List.filter_cons_of_pos h, processLines_cons, processLines_cons]
      cases hp : processLine stem d l with
      | error e => rfl
      | ok d2 => exact ih d2
    · have hf : keepLine l = false := by simpa using h
      rw [List.filter_cons_of_neg (by simp [hf]), processLines_cons,
        processLine_skip stem d l hf]
      exact ih d

theorem getResultsAux_nil (tool : List String → Except String String)
    (args : Args) (d : ResultDict) : getResultsAux tool args [] d = .ok d := rfl

theorem getResultsAux_cons (tool : List String → Except String String)
    (args : Args) (a : String) (rest : List String) (d : ResultDict) :
    getResultsAux tool args (a :: rest) d =
      match run_stxtyper tool a args.threads args.quiet with
      | .error msg => .error (.sysExit msg)
      | .ok output =>
        match processLines (pathStem a) (splitlines output) d with
        | .error e => .error e
        | .ok d2 => getResultsAux tool args rest d2 := rfl

theorem getResultsAux_append (tool : List String → Except String String)
    (args : Args) (xs ys : List String) (d : ResultDict) :
    getResultsAux tool args (xs ++ ys) d =
      match getResultsAux tool args xs d with
      | .error e => .error e
      | .ok d2 => getResultsAux tool args ys d2 := by
  induction xs generalizing d with
  | nil => rfl
  | cons a rest ih =>
    rw [List.cons_append, getResultsAux_cons, getResultsAux_cons]
    cases hr : run_stxtyper tool a args.threads args.quiet with
    | error msg => rfl
    | ok output =>
      cases hp : processLines (pathStem a) (splitlines output) d with
      | error e => simp only [hp]
      | ok d2 =>
        simp only [hp]
        exact ih d2

theorem getResultsAux_cons_fail (tool : List String → Except String String)
    (args : Args) (a : String) (rest : List String) (d : ResultDict)
    (msg : String)
    (h : run_stxtyper tool a args.threads args.quiet = .error msg) :
    getResultsAux tool args (a :: rest) d = .error (.sysExit msg) := by
  rw [getResultsAux_cons]
  simp only [h]

theorem getResultsAux_cons_ok (tool : List String → Except String String)
    (args : Args) (a : String) (rest : List String) (d d2 : ResultDict)
    (output : String)
    (h : run_stxtyper tool a args.threads args.quiet = .ok output)
    (h2 : processLines (pathStem a) (splitlines output) d = .ok d2) :
    getResultsAux tool args (a :: rest) d = getResultsAux tool args rest d2 := by
  rw [getResultsAux_cons]
  simp only [h, h2]

/-! ### Claim theorems -/

/-- Claim C4: `check_cli_options` raises the thread-count validation error
(`ValueError`) exactly for thread counts below 1; for every count at least 1
no validation error is raised (the result is then success or the separate
executable-missing exit, never the `ValueError`). -/
theorem stx_thread_count_validation (t : Int) (q : Bool)
    (which : String → Option String) :
    t < 1 ↔ check_cli_options which ⟨t, q⟩ =
      .error (.valueError "The number of threads must be at least 1.") := by
  constructor
  · intro h
    simp [check_cli_options, h]
  · intro h
    by_contra hge
    rw [not_lt] at hge
    have hnlt : ¬ ((⟨t, q⟩ : Args).threads < 1) := not_lt.mpr hge
    unfold check_cli_options at h
    rw [if_neg hnlt] at h
    by_cases hw : ((which "stxtyper").isNone) = true
    · rw [if_pos hw] at h
      simp at h
    · rw [if_neg hw] at h
      simp at h

/-- Witness for C4: at thread count 0 the validation error is raised, and at
thread count 8 (with the executable present) the options are accepted. -/
theorem stx_thread_count_validation_witness :
    check_cli_options (fun _ => some "/usr/bin/stxtyper") ⟨0, false⟩ =
      .error (.valueError "The number of threads must be at least 1.") ∧
    ¬ (check_cli_options (fun _ => some "/usr/bin/stxtyper") ⟨8, false⟩ =
      .error (.valueError "The number of threads must be at least 1.")) :=
  ⟨(stx_thread_count_validation 0 false (fun _ => some "/usr/bin/stxtyper")).mp
      (by decide),
   fun h =>
     absurd ((stx_thread_count_validation 8 false
       (fun _ => some "/usr/bin/stxtyper")).mpr h) (by decide)⟩

/-- Claim C5: when `stxtyper` does not resolve on the search path, both
`check_external_programs` and `check_cli_options` terminate the process (for
valid thread counts, with their respective `sys.exit` messages); when it does
resolve, `check_external_programs` returns `["stxtyper"]` and
`check_cli_options` succeeds for otherwise valid arguments. -/
theorem stx_external_program_check (which : String → Option String)
    (t : Int) (q : Bool) :
    (which "stxtyper" = none →
      check_external_programs which =
        .error (.sysExit "Error: could not find STXTyper executable.") ∧
      (1 ≤ t → check_cli_options which ⟨t, q⟩ =
        .error (.sysExit "Error: STXTyper is not installed or not in PATH.")) ∧
      (∃ e, check_cli_options which ⟨t, q⟩ = .error e)) ∧
    (∀ path, which "stxtyper" = some path →
      check_external_programs which = .ok ["stxtyper"] ∧
      (1 ≤ t → check_cli_options which ⟨t, q⟩ = .ok ())) := by
  constructor
  · intro habs
    refine ⟨by simp [check_external_programs, habs], ?_, ?_⟩
    · intro ht
      have hnlt : ¬ t < 1 := not_lt.mpr ht
      simp [check_cli_options, hnlt, habs]
    · by_cases hlt : t < 1
      · exact ⟨.valueError "The number of threads must be at least 1.",
          by simp [check_cli_options, hlt]⟩
      · exact ⟨.sysExit "Error: STXTyper is not installed or not in PATH.",
          by simp [check_cli_options, hlt, habs]⟩
  · intro path hp
    constructor
    · simp [check_external_programs, hp]
    · intro ht
      have hnlt : ¬ t < 1 := not_lt.mpr ht
      simp [check_cli_options, hnlt, hp]

/-- Witness for C5: with an empty search path both checks fail; with
`stxtyper` resolving, `check_external_programs` returns `["stxtyper"]` and
`check_cli_options` accepts 2 threads. -/
theorem stx_external_program_check_witness :
    check_external_programs (fun _ => none) =
      .error (.sysExit "Error: could not find STXTyper executable.") ∧
    check_cli_options (fun _ => none) ⟨2, false⟩ =
      .error (.sysExit "Error: STXTyper is not installed or not in PATH.") ∧
    check_external_programs (fun _ => some "/bin/stxtyper") = .ok ["stxtyper"] ∧
    check_cli_options (fun _ => some "/bin/stxtyper") ⟨2, false⟩ = .ok () :=
  ⟨((stx_external_program_check (fun _ => none) 2 false).1 rfl).1,
   ((stx_external_program_check (fun _ => none) 2 false).1 rfl).2.1 (by decide),
   ((stx_external_program_check (fun _ => some "/bin/stxtyper") 2 false).2
      "/bin/stxtyper" rfl).1,
   ((stx_external_program_check (fun _ => some "/bin/stxtyper") 2 false).2
      "/bin/stxtyper" rfl).2 (by decide)⟩

/-- Claim C8: the mapping returned by `get_results` is independent of the
`previous_results` argument — the parameter is accepted but unused. -/
theorem stx_previous_results_unused
    (tool : List String → Except String String) (assemblies : List String)
    (args : Args) (p1 p2 : ResultDict) :
    get_results tool assemblies args p1 = get_results tool assemblies args p2 :=
  rfl

/-- Claim C9: `get_headers` is a fixed pure list of exactly 16 field names;
the first is the assembly identifier `"Assembly"` and the remaining 15 are
the external tool's columns in order. -/
theorem stx_headers_fixed :
    get_headers.length = 16 ∧ get_headers.head? = some "Assembly" ∧
    get_headers.drop 1 =
      ["target_contig", "stx_type", "operon", "identity",
       "target_start", "target_stop", "target_strand",
       "A_reference", "A_identity", "A_reference_subtype", "A_coverage",
       "B_reference", "B_reference_subtype", "B_identity", "B_coverage"] :=
  ⟨rfl, rfl, rfl⟩

/-- Claim C6: blank lines and comment lines in the captured tool output are
excluded from the result set.  Two runs whose tool outputs agree line-by-line
after dropping comment (`#`-prefixed) and blank (whitespace-only) lines — in
particular, one output being the other with extra blank lines inserted —
produce the identical mapping. -/
theorem stx_blank_comment_lines_excluded
    (tool1 tool2 : List String → Except String String)
    (assemblies : List String) (args : Args) (prev : ResultDict)
    (h : ∀ a ∈ assemblies, ∃ out1 out2,
      tool1 (stxtyperCmd a args.threads args.quiet) = .ok out1 ∧
      tool2 (stxtyperCmd a args.threads args.quiet) = .ok out2 ∧
      (splitlines out1).filter keepLine = (splitlines out2).filter keepLine) :
    get_results tool1 assemblies args prev =
      get_results tool2 assemblies args prev := by
  suffices H : ∀ (as : List String),
      (∀ a ∈ as, ∃ out1 out2,
        tool1 (stxtyperCmd a args.threads args.quiet) = .ok out1 ∧
        tool2 (stxtyperCmd a args.threads args.quiet) = .ok out2 ∧
        (splitlines out1).filter keepLine = (splitlines out2).filter keepLine) →
      ∀ d, getResultsAux tool1 args as d = getResultsAux tool2 args as d by
    exact H assemblies h []
  intro as
  induction as with
  | nil => intro _ d; rfl
  | cons a rest ih =>
    intro hs d
    obtain ⟨out1, out2, h1, h2, hf⟩ := hs a (by simp)
    have hr1 : run_stxtyper tool1 a args.threads args.quiet = .ok out1 := by
      simp [run_stxtyper, h1]
    have hr2 : run_stxtyper tool2 a args.threads args.quiet = .ok out2 := by
      simp [run_stxtyper, h2]
    rw [getResultsAux_cons, getResultsAux_cons]
    simp only [hr1, hr2]
    have hpl : processLines (pathStem a) (splitlines out1) d =
        processLines (pathStem a) (splitlines out2) d := by
      rw [processLines_filter, hf, ← processLines_filter]
    rw [hpl]
    cases hp : processLines (pathStem a) (splitlines out2) d with
    | error e => rfl
    | ok d2 => exact ih (fun a2 ha2 => hs a2 (by simp [ha2])) d2

/-- Witness for C6: the output `"ct\tstx\n"` and the same output with a
comment line, blank lines and a whitespace-only line added parse to the same
one-entry mapping. -/
theorem stx_blank_comment_lines_excluded_witness :
    get_results (fun _ => .ok "ct\tstx\n") ["s.fa"] ⟨8, false⟩ [] =
      get_results (fun _ => .ok "\n#hdr\nct\tstx\n\n \n") ["s.fa"] ⟨8, false⟩ [] :=
  stx_blank_comment_lines_excluded (fun _ => .ok "ct\tstx\n")
    (fun _ => .ok "\n#hdr\nct\tstx\n\n \n") ["s.fa"] ⟨8, false⟩ []
    (fun a _ => ⟨"ct\tstx\n", "\n#hdr\nct\tstx\n\n \n", rfl, rfl, by decide⟩)

/-- Claim C3: when the subprocess for one assembly fails (after a prefix of
assemblies that processed successfully), `run_stxtyper` turns the failure
into a process exit whose message embeds the underlying error, and
`get_results` over the whole batch returns that exit — no mapping at all, so
no results for the failing assembly or any assembly after it. -/
theorem stx_subprocess_failure_aborts_batch
    (tool : List String → Except String String) (args : Args)
    (prev : ResultDict) (done : List String) (p : String)
    (rest : List String) (e : String) (d1 : ResultDict)
    (hdone : getResultsAux tool args done [] = .ok d1)
    (hfail : tool (stxtyperCmd p args.threads args.quiet) = .error e) :
    run_stxtyper tool p args.threads args.quiet =
      .error ("Error running STXTyper: " ++ e) ∧
    get_results tool (done ++ p :: rest) args prev =
      .error (.sysExit ("Error running STXTyper: " ++ e)) := by
  have hr : run_stxtyper tool p args.threads args.quiet =
      .error ("Error running STXTyper: " ++ e) := by
    simp [run_stxtyper, hfail]
  refine ⟨hr, ?_⟩
  unfold get_results
  rw [getResultsAux_append, hdone]
  simp only [getResultsAux_cons_fail tool args p rest d1 _ hr]

/-- Witness for C3: in the batch `["a.fa", "b.fa", "c.fa"]` where the tool
fails on `b.fa`, the whole run exits with the embedded error and `c.fa` is
never reflected in any result. -/
theorem stx_subprocess_failure_aborts_batch_witness :
    get_results
      (fun cmd => if cmd.getD 2 "" == "b.fa" then .error "exit status 1"
        else .ok "")
      (["a.fa"] ++ "b.fa" :: ["c.fa"]) ⟨8, false⟩ [] =
      .error (.sysExit ("Error running STXTyper: " ++ "exit status 1")) :=
  (stx_subprocess_failure_aborts_batch
    (fun cmd => if cmd.getD 2 "" == "b.fa" then .error "exit status 1"
      else .ok "")
    ⟨8, false⟩ [] ["a.fa"] "b.fa" ["c.fa"] "exit status 1" [] rfl rfl).2

/-- Claim C1: for one assembly whose captured output is a `#`-comment line
followed by two tab-separated data lines (with distinct derived keys),
`get_results` returns a mapping with exactly the two entries keyed
`"<stem>_<contig>_<stx_type>"`, and each record's `Assembly` field is the
assembly path's stem. -/
theorem stx_single_assembly_two_rows
    (tool : List String → Except String String) (args : Args)
    (prev : ResultDict) (p out c l1 l2 a1 b1 a2 b2 : String)
    (r1 r2 : List String)
    (htool : tool (stxtyperCmd p args.threads args.quiet) = .ok out)
    (hsplit : splitlines out = [c, l1, l2])
    (hc : pystartswith c "#" = true)
    (h1s : pystartswith l1 "#" = false) (h1b : (pystrip l1 == "") = false)
    (h1p : pysplit (pystrip l1) '\t' = a1 :: b1 :: r1)
    (h2s : pystartswith l2 "#" = false) (h2b : (pystrip l2 == "") = false)
    (h2p : pysplit (pystrip l2) '\t' = a2 :: b2 :: r2)
    (hk : pathStem p ++ "_" ++ a1 ++ "_" ++ b1 ≠
      pathStem p ++ "_" ++ a2 ++ "_" ++ b2) :
    get_results tool [p] args prev =
      .ok [(pathStem p ++ "_" ++ a1 ++ "_" ++ b1,
              rowOf (pathStem p) (a1 :: b1 :: r1)),
           (pathStem p ++ "_" ++ a2 ++ "_" ++ b2,
              rowOf (pathStem p) (a2 :: b2 :: r2))] ∧
    lookupField (rowOf (pathStem p) (a1 :: b1 :: r1)) "Assembly" =
      some (pathStem p) ∧
    lookupField (rowOf (pathStem p) (a2 :: b2 :: r2)) "Assembly" =
      some (pathStem p) := by
  refine ⟨?_, lookup_rowOf_assembly _ _, lookup_rowOf_assembly _ _⟩
  have hr : run_stxtyper tool p args.threads args.quiet = .ok out := by
    simp [run_stxtyper, htool]
  have hskip : processLine (pathStem p) [] c = .ok [] :=
    processLine_skip _ _ _ (by simp [keepLine, hc])
  have hd1 : processLine (pathStem p) [] l1 =
      .ok [(pathStem p ++ "_" ++ a1 ++ "_" ++ b1,
        rowOf (pathStem p) (a1 :: b1 :: r1))] := by
    rw [processLine_data (pathStem p) [] l1 a1 b1 r1 h1s h1b h1p]
    rfl
  have hkb : ((pathStem p ++ "_" ++ a1 ++ "_" ++ b1) ==
      (pathStem p ++ "_" ++ a2 ++ "_" ++ b2)) = false := by
    simp only [beq_eq_false_iff_ne, ne_eq]
    exact hk
  have hd2 : processLine (pathStem p)
      [(pathStem p ++ "_" ++ a1 ++ "_" ++ b1,
        rowOf (pathStem p) (a1 :: b1 :: r1))] l2 =
      .ok [(pathStem p ++ "_" ++ a1 ++ "_" ++ b1,
              rowOf (pathStem p) (a1 :: b1 :: r1)),
           (pathStem p ++ "_" ++ a2 ++ "_" ++ b2,
              rowOf (pathStem p) (a2 :: b2 :: r2))] := by
    rw [processLine_data (pathStem p) _ l2 a2 b2 r2 h2s h2b h2p]
    simp [pyDictSet, hkb]
  have hall : processLines (pathStem p) [c, l1, l2] [] =
      .ok [(pathStem p ++ "_" ++ a1 ++ "_" ++ b1,
              rowOf (pathStem p) (a1 :: b1 :: r1)),
           (pathStem p ++ "_" ++ a2 ++ "_" ++ b2,
              rowOf (pathStem p) (a2 :: b2 :: r2))] := by
    simp only [processLines_cons, processLines_nil, hskip, hd1, hd2]
  unfold get_results
  rw [getResultsAux_cons]
  simp only [hr, hsplit, hall]
  rfl

/-- Witness for C1: the assembly `data/sample1.fasta` with a comment line and
the two data rows `ct1 / stx1a` and `ct2 / stx2b` yields exactly the two
expected keyed records. -/
theorem stx_single_assembly_two_rows_witness :
    get_results (fun _ => .ok "#c\nct1\tstx1a\nct2\tstx2b\n")
      ["data/sample1.fasta"] ⟨8, false⟩ [] =
      .ok [(pathStem "data/sample1.fasta" ++ "_" ++ "ct1" ++ "_" ++ "stx1a",
              rowOf (pathStem "data/sample1.fasta") ["ct1", "stx1a"]),
           (pathStem "data/sample1.fasta" ++ "_" ++ "ct2" ++ "_" ++ "stx2b",
              rowOf (pathStem "data/sample1.fasta") ["ct2", "stx2b"])] ∧
    lookupField (rowOf (pathStem "data/sample1.fasta") ["ct1", "stx1a"])
      "Assembly" = some (pathStem "data/sample1.fasta") ∧
    lookupField (rowOf (pathStem "data/sample1.fasta") ["ct2", "stx2b"])
      "Assembly" = some (pathStem "data/sample1.fasta") :=
  stx_single_assembly_two_rows (fun _ => .ok "#c\nct1\tstx1a\nct2\tstx2b\n")
    ⟨8, false⟩ [] "data/sample1.fasta" "#c\nct1\tstx1a\nct2\tstx2b\n"
    "#c" "ct1\tstx1a" "ct2\tstx2b" "ct1" "stx1a" "ct2" "stx2b" [] []
    rfl (by decide) rfl rfl rfl (by decide) rfl rfl (by decide) (by decide)

/-- Claim C2: two records with an identical composite key — here produced by
two assemblies with equal stems and one identical contig/type data line each
— leave exactly one entry under that key, holding the field values of the
later-processed record (last-write-wins). -/
theorem stx_colliding_key_last_write_wins
    (tool : List String → Except String String) (args : Args)
    (prev : ResultDict) (p1 p2 out1 out2 l1 l2 a b : String)
    (r1 r2 : List String)
    (htool1 : tool (stxtyperCmd p1 args.threads args.quiet) = .ok out1)
    (htool2 : tool (stxtyperCmd p2 args.threads args.quiet) = .ok out2)
    (hsplit1 : splitlines out1 = [l1]) (hsplit2 : splitlines out2 = [l2])
    (h1s : pystartswith l1 "#" = false) (h1b : (pystrip l1 == "") = false)
    (h1p : pysplit (pystrip l1) '\t' = a :: b :: r1)
    (h2s : pystartswith l2 "#" = false) (h2b : (pystrip l2 == "") = false)
    (h2p : pysplit (pystrip l2) '\t' = a :: b :: r2)
    (hstem : pathStem p1 = pathStem p2) :
    get_results tool [p1, p2] args prev =
      .ok [(pathStem p2 ++ "_" ++ a ++ "_" ++ b,
        rowOf (pathStem p2) (a :: b :: r2))] := by
  have hr1 : run_stxtyper tool p1 args.threads args.quiet = .ok out1 := by
    simp [run_stxtyper, htool1]
  have hr2 : run_stxtyper tool p2 args.threads args.quiet = .ok out2 := by
    simp [run_stxtyper, htool2]
  have hd1 : processLine (pathStem p1) [] l1 =
      .ok [(pathStem p2 ++ "_" ++ a ++ "_" ++ b,
        rowOf (pathStem p2) (a :: b :: r1))] := by
    rw [processLine_data (pathStem p1) [] l1 a b r1 h1s h1b h1p, hstem]
    rfl
  have hd2 : processLine (pathStem p2)
      [(pathStem p2 ++ "_" ++ a ++ "_" ++ b,
        rowOf (pathStem p2) (a :: b :: r1))] l2 =
      .ok [(pathStem p2 ++ "_" ++ a ++ "_" ++ b,
        rowOf (pathStem p2) (a :: b :: r2))] := by
    rw [processLine_data (pathStem p2) _ l2 a b r2 h2s h2b h2p]
    simp [pyDictSet]
  unfold get_results
  rw [getResultsAux_cons]
  simp only [hr1, hsplit1, processLines_cons, processLines_nil, hd1]
  rw [getResultsAux_cons]
  simp only [hr2, hsplit2, processLines_cons, processLines_nil, hd2]
  rfl

/-- Witness for C2: assemblies `a/s.fa` and `b/s.fa` (stem `s` both) each
produce a row keyed `s_ct_stx2a`; the mapping keeps one entry whose fields
come from the second assembly's row (third column `Y`, not `X`). -/
theorem stx_colliding_key_last_write_wins_witness :
    get_results
      (fun cmd => if cmd.getD 2 "" == "a/s.fa" then .ok "ct\tstx2a\tX\n"
        else .ok "ct\tstx2a\tY\n")
      ["a/s.fa", "b/s.fa"] ⟨8, false⟩ [] =
      .ok [(pathStem "b/s.fa" ++ "_" ++ "ct" ++ "_" ++ "stx2a",
        rowOf (pathStem "b/s.fa") ["ct", "stx2a", "Y"])] :=
  stx_colliding_key_last_write_wins
    (fun cmd => if cmd.getD 2 "" == "a/s.fa" then .ok "ct\tstx2a\tX\n"
      else .ok "ct\tstx2a\tY\n")
    ⟨8, false⟩ [] "a/s.fa" "b/s.fa" "ct\tstx2a\tX\n" "ct\tstx2a\tY\n"
    "ct\tstx2a\tX" "ct\tstx2a\tY" "ct" "stx2a" ["X"] ["Y"]
    rfl rfl rfl rfl rfl (by decide) rfl rfl (by decide) rfl rfl

/-- Counterexample to C7 as stated: the non-comment, non-blank line
`"contig1"` has 1 tab-separated field (differing from the expected 15), yet
`get_results` does not silently produce a record for it — the composite-key
construction raises `KeyError: 'stx_type'`, aborting the run. -/
theorem stx_single_field_line_keyerror :
    get_results (fun _ => .ok "contig1\n") ["sample.fa"] ⟨8, false⟩ [] =
      .error (.keyError "stx_type") := rfl

/-- Claim C7 (amended): for every non-comment, non-blank line with at least
two tab-separated fields whose count differs from the expected 15,
`get_results`'s line loop silently stores a record built by the positional
zip — which truncates to the shorter of line fields vs headers, so the
stored row has `min 15 (number of fields)` header fields plus the injected
`Assembly` field — rather than detecting an error.  (A line with exactly one
field instead raises `KeyError`.) -/
theorem stx_malformed_line_truncating_zip (stem : String) (d : ResultDict)
    (line a b : String) (rest : List String)
    (h1 : pystartswith line "#" = false)
    (h2 : (pystrip line == "") = false)
    (h3 : pysplit (pystrip line) '\t' = a :: b :: rest)
    (h4 : (a :: b :: rest).length ≠ 15) :
    processLine stem d line =
      .ok (pyDictSet d (stem ++ "_" ++ a ++ "_" ++ b)
        (rowOf stem (a :: b :: rest))) ∧
    (rowOf stem (a :: b :: rest)).length =
      min 15 (a :: b :: rest).length + 1 :=
  ⟨processLine_data stem d line a b rest h1 h2 h3, rowOf_length stem _⟩

/-- Witness for the amended C7: a 3-field line is stored silently as a
record with `min 15 3 = 3` zipped fields plus `Assembly`. -/
theorem stx_malformed_line_truncating_zip_witness :
    processLine "s" [] "ct\tstx\textra" =
      .ok (pyDictSet [] ("s" ++ "_" ++ "ct" ++ "_" ++ "stx")
        (rowOf "s" ["ct", "stx", "extra"])) ∧
    (rowOf "s" ["ct", "stx", "extra"]).length =
      min 15 (["ct", "stx", "extra"] : List String).length + 1 :=
  stx_malformed_line_truncating_zip "s" [] "ct\tstx\textra" "ct" "stx"
    ["extra"] rfl (by decide) rfl (by decide)

/-- Claim C10: a line is skipped as a comment only when its very first
character is `#`; a whitespace-only line is skipped by the strip-based blank
check; and a line with leading whitespace before `#` passes the guard and is
parsed as a data row. -/
theorem stx_comment_guard_first_char (stem : String) (d : ResultDict)
    (line : String) :
    (pystartswith line "#" = true → processLine stem d line = .ok d) ∧
    (pystrip line = "" → processLine stem d line = .ok d) ∧
    (∀ a b rest, pystartswith line "#" = false →
      (pystrip line == "") = false →
      pysplit (pystrip line) '\t' = a :: b :: rest →
      processLine stem d line =
        .ok (pyDictSet d (stem ++ "_" ++ a ++ "_" ++ b)
          (rowOf stem (a :: b :: rest)))) := by
  refine ⟨?_, ?_, ?_⟩
  · intro h
    exact processLine_skip stem d line (by simp [keepLine, h])
  · intro h
    exact processLine_skip stem d line (by simp [keepLine, h])
  · intro a b rest h1 h2 h3
    exact processLine_data stem d line a b rest h1 h2 h3

/-- Witness for C10: `"#x"` is skipped; the whitespace-only line `" \t"` is
skipped; `" #contig\tstx1a"` (leading space, then `#`) is parsed as a data
row whose contig field is the string `"#contig"`. -/
theorem stx_comment_guard_first_char_witness :
    processLine "s" [] "#x" = .ok [] ∧
    processLine "s" [] " \t" = .ok [] ∧
    processLine "s" [] " #contig\tstx1a" =
      .ok (pyDictSet [] ("s" ++ "_" ++ "#contig" ++ "_" ++ "stx1a")
        (rowOf "s" ["#contig", "stx1a"])) :=
  ⟨(stx_comment_guard_first_char "s" [] "#x").1 rfl,
   (stx_comment_guard_first_char "s" [] " \t").2.1 (by decide),
   (stx_comment_guard_first_char "s" [] " #contig\tstx1a").2.2 "#contig"
     "stx1a" [] rfl (by decide) rfl⟩

end StxTyper
